import Mathlib

/-!
# Verification of the Epicourier-Web inventory recommendation engine

Shallow embedding of `backend/api/recommender.py` (inventory-based scoring,
coverage, expiration bonus, reasoning generation, preference filtering and
diversity selection).

Modelling conventions:
* Python `float` arithmetic is modelled by exact rationals (`ℚ`); every
  constant appearing in the source (`0.15`, `0.05`, `0.3`, …) is exactly
  representable and the arithmetic the claims mention stays within ranges
  where rational and double arithmetic agree.
* Python `dict` built by successive assignment is modelled as an association
  list in which later insertions shadow earlier ones; the source only ever
  performs key lookup, key-membership tests and emptiness tests on
  `inventory_dict`, all of which the shadowing association list reproduces.
* External services (the `datetime.fromisoformat` parser, the Gemini text
  service and the KMeans clustering of sentence embeddings) are passed in as
  explicit oracle arguments: a `parse` function for dates, an
  `Option String` for the Gemini response text (`none` models the service
  raising) and an `Option (List Nat)` for the cluster labels (`none` models
  the embedding/clustering call raising).
* Python exceptions that the source catches are modelled by the
  corresponding `Option`/fallback branches, mirroring the `try`/`except`
  structure of the source.
-/

/-- Python `int()` applied to a nonnegative/negative rational: truncation
toward zero (`int(99.5) == 99`, `int(-1.5) == -1`). -/
def pyInt (q : ℚ) : ℤ :=
  if 0 ≤ q then ⌊q⌋ else ⌈q⌉

/-- Python truthiness of an optional string (`None` and `""` are falsy). -/
def pyTruthyStr : Option String → Bool
  | none => false
  | some s => !s.isEmpty

/-- Python truthiness of an optional integer ingredient id
(`None`, absent and `0` are falsy: the source guard `if ing_id:`). -/
def pyTruthyId : Option Nat → Bool
  | none => false
  | some n => n != 0

/-- Python `str.lstrip("- ")`: drop leading characters belonging to the set. -/
def pyLstripDashSpace (s : String) : String :=
  String.mk (s.toList.dropWhile (fun c => c == '-' || c == ' '))

/-- The source's `expiration_date_str.replace("Z", "+00:00")` for its fixed
one-character pattern: every `'Z'` is replaced by `"+00:00"`.  Implemented
by structural recursion over the characters (equivalent to
`String.replace s "Z" "+00:00"`) so that it computes inside the kernel. -/
def pyReplaceZ (s : String) : String :=
  String.mk (s.toList.flatMap
    (fun c => if c == 'Z' then ['+', '0', '0', ':', '0', '0'] else [c]))

/-- A recipe row of the catalog (`recipe_data`): id, name, image and tags. -/
structure Recipe where
  id : Nat
  name : String
  image_url : Option String
  tags : List String
deriving DecidableEq, Inhabited

/-- A raw inventory item as received by `recommend_from_inventory`
(fields may be absent, modelled with `Option`). -/
structure InventoryItemIn where
  ingredient_id : Option Nat
  quantity : Option ℚ
  expiration_date : Option String
deriving DecidableEq, Inhabited

/-- The per-ingredient record stored in `inventory_dict`. -/
structure InvInfo where
  quantity : ℚ
  expiration_date : Option String
  days_until_expiration : Option ℤ
  name : String
deriving DecidableEq, Inhabited

/-- One `{"name": ..., "expires_in_days": ...}` entry of `expiring_items`. -/
structure ExpiringItem where
  name : String
  expires_in_days : ℤ
deriving DecidableEq, Inhabited

/-- One entry of `scored_recipes` inside `recommend_from_inventory`. -/
structure ScoredRecipe where
  recipe_id : Nat
  recipe_name : String
  recipe_image : Option String
  coverage_score : ℚ
  total_score : ℚ
  missing_ingredients : List String
  uses_expiring : List ExpiringItem
  available_ingredients : List Nat
  tags : List String
deriving DecidableEq, Inhabited

/-- One entry of the final `recommendations` list. -/
structure Recommendation where
  recipe_id : Nat
  recipe_name : String
  recipe_image : Option String
  coverage_score : ℚ
  missing_ingredients : List String
  uses_expiring : List ExpiringItem
  reasoning : String
deriving DecidableEq, Inhabited

/-- The inventory dictionary: ingredient id to stored info, later
insertions shadowing earlier ones (lookup finds the most recent). -/
abbrev InvDict := List (Nat × InvInfo)

/-- Key lookup in `inventory_dict` (Python `inventory_dict.get(ing_id)`). -/
def invLookup (dict : InvDict) (i : Nat) : Option InvInfo :=
  List.lookup i dict

/-- Key membership in `inventory_dict` (Python `ing_id in inventory_dict`). -/
def invMem (dict : InvDict) (i : Nat) : Bool :=
  (invLookup dict i).isSome

/-- The key set of `inventory_dict`. -/
def invDictKeys (dict : InvDict) : Finset Nat :=
  (dict.map Prod.fst).toFinset

/-- `calculate_days_until_expiration`: the ISO parser
(`datetime.fromisoformat` followed by the timezone strip and `.date()`)
is abstracted as the oracle `parse`, returning the day ordinal of the
parsed date or `none` where the Python call would raise `ValueError`;
`today` is the day ordinal of `date.today()`.  The source's
`try`/`except` catches the parser failure and returns `None`; the falsy
guard sends both `None` and `""` to `None`. -/
def calculate_days_until_expiration (parse : String → Option ℤ) (today : ℤ) :
    Option String → Option ℤ
  | none => none
  | some s =>
    if s.isEmpty then none
    else
      match parse (pyReplaceZ s) with
      | none => none
      | some expDate => some (expDate - today)

/-- Name resolution for a missing ingredient inside
`calculate_coverage_and_missing`: first matching row of the `ingredients`
table, else the `"Unknown ingredient ({ing_id})"` fallback string. -/
def resolveMissingName (ingredients : List (Nat × String)) (i : Nat) : String :=
  match ingredients.find? (fun p => p.1 == i) with
  | some p => p.2
  | none => "Unknown ingredient (" ++ toString i ++ ")"

/-- The ingredient ids the `recipe_ing_map` table assigns to a recipe
(the rows selected by `recipe_ing_map["recipe_id"] == recipe_id`). -/
def recipeRequiredIds (recipe_ing_map : List (Nat × Nat)) (recipe_id : Nat) :
    List Nat :=
  (recipe_ing_map.filter (fun p => p.1 == recipe_id)).map (fun p => p.2)

/-- The row loop of `calculate_coverage_and_missing`: returns
`(available_count, missing, available)` accumulated in iteration order. -/
def coverageLoop (dict : InvDict) (ingredients : List (Nat × String)) :
    List Nat → Nat × List String × List Nat
  | [] => (0, [], [])
  | i :: rest =>
    let r := coverageLoop dict ingredients rest
    if invMem dict i then (r.1 + 1, r.2.1, i :: r.2.2)
    else (r.1, resolveMissingName ingredients i :: r.2.1, r.2.2)

/-- `calculate_coverage_and_missing`: coverage score, missing ingredient
names and available ingredient ids for a recipe against the inventory.
Note the source returns `0.0, [], []` when the recipe has no ingredient
rows at all. -/
def calculate_coverage_and_missing (recipe_id : Nat) (inventory_dict : InvDict)
    (recipe_ing_map : List (Nat × Nat)) (ingredients : List (Nat × String)) :
    ℚ × List String × List Nat :=
  let req := recipeRequiredIds recipe_ing_map recipe_id
  if req = [] then (0, [], [])
  else
    let total_ingredients : Nat := req.length
    let r := coverageLoop inventory_dict ingredients req
    let coverage : ℚ :=
      if total_ingredients > 0 then (r.1 : ℚ) / (total_ingredients : ℚ) else 0
    (coverage, r.2.1, r.2.2)

/-- The per-ingredient loop of `calculate_expiration_bonus`, before the
final cap: `(accumulated bonus, expiring_items)` in iteration order. -/
def bonusLoop (dict : InvDict) : List Nat → ℚ × List ExpiringItem
  | [] => (0, [])
  | i :: rest =>
    let r := bonusLoop dict rest
    match invLookup dict i with
    | none => r
    | some item =>
      match item.days_until_expiration with
      | none => r
      | some d =>
        if d ≤ 2 then (0.15 + r.1, ⟨item.name, d⟩ :: r.2)
        else if d ≤ 7 then (0.05 + r.1, ⟨item.name, d⟩ :: r.2)
        else r

/-- `calculate_expiration_bonus`: step bonus summed over the available
ingredients, capped at `MAX_BONUS = 0.3`, along with the expiring items. -/
def calculate_expiration_bonus (available_ingredients : List Nat)
    (inventory_dict : InvDict) : ℚ × List ExpiringItem :=
  let r := bonusLoop inventory_dict available_ingredients
  (min r.1 0.3, r.2)

/-- The step bonus one available ingredient contributes before the cap:
`0.15` for `d ≤ 2`, `0.05` for `2 < d ≤ 7`, else `0`; ingredients with no
dictionary entry or no known expiration contribute `0`. -/
def expirationStep (dict : InvDict) (i : Nat) : ℚ :=
  match invLookup dict i with
  | none => 0
  | some item =>
    match item.days_until_expiration with
    | none => 0
    | some d => if d ≤ 2 then 0.15 else if d ≤ 7 then 0.05 else 0

/-- The clause list the `expiring_items` branch of `generate_reasoning`
contributes (empty when there are no expiring items). -/
def expiringParts : List ExpiringItem → List String
  | [] => []
  | e :: rest =>
    let expiring_names := ((e :: rest).take 3).map (fun it => it.name)
    if rest = [] then ["Uses expiring " ++ e.name]
    else ["Uses expiring ingredients: " ++ String.intercalate ", " expiring_names]

/-- The clause list the `missing_ingredients` branch of `generate_reasoning`
contributes (empty when nothing is missing). -/
def missingParts (missing : List String) : List String :=
  if missing = [] then []
  else if missing.length ≤ 2 then ["Missing: " ++ String.intercalate ", " missing]
  else ["Missing " ++ toString missing.length ++ " ingredients"]

/-- `generate_reasoning`: the human-readable justification string.  The
source computes `coverage_pct = int(coverage_score * 100)` (truncation) and
keeps two textually identical branches for `coverage_pct >= 80` and the
final `else`; both are mirrored. -/
def generate_reasoning (coverage_score : ℚ) (expiring_items : List ExpiringItem)
    (missing_ingredients : List String) : String :=
  let coverage_pct := pyInt (coverage_score * 100)
  let parts : List String :=
    (if coverage_pct ≥ 100 then ["You have all the ingredients needed"]
     else if coverage_pct ≥ 80 then
       ["Uses " ++ toString coverage_pct ++ "% of required ingredients"]
     else ["Uses " ++ toString coverage_pct ++ "% of required ingredients"])
    ++ expiringParts expiring_items
    ++ missingParts missing_ingredients
  String.intercalate ". " parts ++ "."

/-- The combined score `recommend_from_inventory` assigns to a scored
recipe: the source line `total_score = coverage + exp_bonus`. -/
def total_score (coverage exp_bonus : ℚ) : ℚ :=
  coverage + exp_bonus

/-- Modelled from the spec: the `combined_score` function of the 0.7/0.3
weighting.  It is imported and exercised by
`backend/tests/test_inventory_recommend.py` but its definition is not
present under `src/`; the spec gives
`combined_score = 0.7 * coverage_score + 0.3 * aggregate_pantry_urgency`. -/
def combined_score (coverage expiration : ℚ) : ℚ :=
  0.7 * coverage + 0.3 * expiration

/-- Stable insertion step of the descending sort: a later element is
placed after every strictly higher-keyed element and after no equal-keyed
one, which reproduces Python's stable `list.sort(key=..., reverse=True)`. -/
def insertDescBy (key : α → ℚ) (x : α) : List α → List α
  | [] => [x]
  | y :: ys => if key y > key x then y :: insertDescBy key x ys else x :: y :: ys

/-- Python `list.sort(key=..., reverse=True)`: stable descending sort. -/
def sortDescBy (key : α → ℚ) : List α → List α
  | [] => []
  | x :: xs => insertDescBy key x (sortDescBy key xs)

/-- Python `max(l, key=f)` over a nonempty list: the first element
attaining the maximal key (`none` for the empty list). -/
def firstMaxBy (f : α → ℚ) : List α → Option α
  | [] => none
  | x :: xs =>
    match firstMaxBy f xs with
    | none => some x
    | some y => if f x ≥ f y then some x else some y

/-- `filter_by_preferences`: narrows the scored recipes to those named by
the Gemini response.  `gemini` is the raw `response.text` of the service
call, `none` modelling the call (or anything else inside the `try` block)
raising; in that case, and when the filter result is empty, the original
list is returned.  The `recipes[:15]` slice only feeds the prompt text and
has no observable effect on the result. -/
def filter_by_preferences (gemini : Option String) (recipes : List ScoredRecipe)
    (preferences : Option String) : List ScoredRecipe :=
  if !pyTruthyStr preferences || recipes.isEmpty then recipes
  else
    match gemini with
    | none => recipes
    | some text =>
      let matched_names :=
        (text.trim.splitOn "\n").filterMap (fun line =>
          if line.trim.isEmpty then none
          else some (pyLstripDashSpace line.trim.toLower))
      let filtered := recipes.filter
        (fun r => matched_names.contains r.recipe_name.toLower)
      if filtered = [] then recipes else filtered

/-- `select_diverse_inventory_recipes`: one best-scored representative per
KMeans cluster.  The embedding of the candidate recipe texts and the
KMeans call are abstracted by `kmeansLabels`, the label list `fit_predict`
returns for the candidates in order (`none` modelling the `try` block
raising, which falls back to plain truncation); the `recipe_data` lookup in
the source only constructs those texts and is absorbed into the oracle. -/
def select_diverse_inventory_recipes (kmeansLabels : Option (List Nat))
    (candidates : List ScoredRecipe) (n_recipes : Nat) : List ScoredRecipe :=
  if candidates.length ≤ n_recipes then candidates
  else
    match kmeansLabels with
    | none => candidates.take n_recipes
    | some cluster_labels =>
      let n_clusters := min n_recipes candidates.length
      let labeled := candidates.zip cluster_labels
      let selected := (List.range n_clusters).filterMap (fun cluster_id =>
        firstMaxBy (fun c => c.total_score)
          ((labeled.filter (fun p => p.2 == cluster_id)).map (fun p => p.1)))
      (sortDescBy (fun x => x.total_score) selected).take n_recipes

/-- The ingredient-name lookup used while building `inventory_dict`
(first matching row, else the string `"Unknown"`). -/
def inventoryName (ingredients : List (Nat × String)) (i : Nat) : String :=
  match ingredients.find? (fun p => p.1 == i) with
  | some p => p.2
  | none => "Unknown"

/-- The `inventory_dict` construction loop of `recommend_from_inventory`:
items with a falsy `ingredient_id` are skipped; later items shadow earlier
ones with the same id (Python dict assignment), realised by listing later
entries first. -/
def buildInventoryDict (parse : String → Option ℤ) (today : ℤ)
    (ingredients : List (Nat × String)) : List InventoryItemIn → InvDict
  | [] => []
  | item :: rest =>
    let d := buildInventoryDict parse today ingredients rest
    match item.ingredient_id with
    | none => d
    | some ing_id =>
      if ing_id == 0 then d
      else
        d ++ [(ing_id,
          { quantity := item.quantity.getD 0,
            expiration_date := item.expiration_date,
            days_until_expiration :=
              calculate_days_until_expiration parse today item.expiration_date,
            name := inventoryName ingredients ing_id })]

/-- The scored entry `recommend_from_inventory` builds for one catalog
recipe, or `none` when the zero-coverage guard skips it. -/
def scoreRecipe (inventory_dict : InvDict) (recipe_ing_map : List (Nat × Nat))
    (ingredients : List (Nat × String)) (recipe : Recipe) : Option ScoredRecipe :=
  let cov := calculate_coverage_and_missing recipe.id inventory_dict
    recipe_ing_map ingredients
  if cov.1 = 0 then none
  else
    let bonus := calculate_expiration_bonus cov.2.2 inventory_dict
    some
      { recipe_id := recipe.id,
        recipe_name := recipe.name,
        recipe_image := recipe.image_url,
        coverage_score := cov.1,
        total_score := total_score cov.1 bonus.1,
        missing_ingredients := cov.2.1,
        uses_expiring := bonus.2,
        available_ingredients := cov.2.2,
        tags := recipe.tags }

/-- Python `round(x, 2)` on the exact rational model. -/
def roundTo2 (q : ℚ) : ℚ :=
  (round (q * 100) : ℚ) / 100

/-- The final recommendation entry built from a scored recipe. -/
def buildRecommendation (recipe : ScoredRecipe) : Recommendation :=
  { recipe_id := recipe.recipe_id,
    recipe_name := recipe.recipe_name,
    recipe_image := recipe.recipe_image,
    coverage_score := roundTo2 recipe.coverage_score,
    missing_ingredients := recipe.missing_ingredients,
    uses_expiring := recipe.uses_expiring,
    reasoning := generate_reasoning recipe.coverage_score recipe.uses_expiring
      recipe.missing_ingredients }

/-- The summary string of `recommend_from_inventory`. -/
def buildSummary (recommendations : List Recommendation) : String :=
  let avg_coverage : ℚ :=
    if recommendations ≠ [] then
      (recommendations.map (fun r => r.coverage_score)).sum /
        (recommendations.length : ℚ)
    else 0
  let total_expiring_used :=
    (recommendations.map (fun r => r.uses_expiring.length)).sum
  let summary := "Found " ++ toString recommendations.length ++ " recipes with "
    ++ toString (pyInt (avg_coverage * 100))
    ++ "% average ingredient coverage"
  if total_expiring_used > 0 then
    summary ++ ", using " ++ toString total_expiring_used
      ++ " expiring ingredients"
  else summary

/-- `recommend_from_inventory`: the full inventory scoring pipeline.
Oracle arguments: `parse`/`today` for date handling, `gemini` for the
preference-filter service response and `kmeansLabels` for the diversity
clustering. -/
def recommend_from_inventory (parse : String → Option ℤ) (today : ℤ)
    (gemini : Option String) (kmeansLabels : Option (List Nat))
    (recipe_data : List Recipe) (recipe_ing_map : List (Nat × Nat))
    (ingredients : List (Nat × String)) (inventory_items : List InventoryItemIn)
    (preferences : Option String) (num_recipes : Nat) :
    List Recommendation × String :=
  let inventory_dict := buildInventoryDict parse today ingredients inventory_items
  if inventory_dict = [] then ([], "No valid inventory items provided.")
  else
    let scored_recipes := recipe_data.filterMap
      (scoreRecipe inventory_dict recipe_ing_map ingredients)
    if scored_recipes = [] then ([], "No recipes found matching your inventory.")
    else
      let scored_sorted := sortDescBy (fun x => x.total_score) scored_recipes
      let scored_filtered :=
        if pyTruthyStr preferences && !scored_sorted.isEmpty then
          filter_by_preferences gemini scored_sorted preferences
        else scored_sorted
      let top_candidates := scored_filtered.take (min 20 scored_filtered.length)
      let diverse_recipes :=
        if num_recipes ≤ top_candidates.length ∧
            num_recipes < top_candidates.length then
          select_diverse_inventory_recipes kmeansLabels top_candidates num_recipes
        else top_candidates.take num_recipes
      let recommendations := diverse_recipes.map buildRecommendation
      (recommendations, buildSummary recommendations)

/-! ## Concrete sample data used by witnesses and counterexamples -/

/-- Sample ingredient table. -/
def sampleIngredients : List (Nat × String) :=
  [(1, "Egg"), (2, "Milk"), (3, "Flour"), (4, "Sugar"), (5, "Butter")]

/-- Sample recipe-ingredient map: recipe 10 requires {1,2}, recipe 11
requires {1,2,3,4,5}, recipe 12 has no ingredient rows, recipe 13
requires {5}. -/
def sampleMap : List (Nat × Nat) :=
  [(10, 1), (10, 2), (11, 1), (11, 2), (11, 3), (11, 4), (11, 5), (13, 5)]

/-- Sample recipe catalog. -/
def sampleCatalog : List Recipe :=
  [⟨10, "Omelette", none, ["breakfast"]⟩,
   ⟨11, "Cake", some "cake.png", ["dessert"]⟩,
   ⟨12, "Water", none, []⟩,
   ⟨13, "Toast", none, []⟩]

/-- Sample date parser oracle: recognises one ISO date (day ordinal 20089). -/
def sampleParse : String → Option ℤ :=
  fun s => if s = "2025-01-01" then some 20089 else none

/-- Sample inventory: ingredient 2 without expiration, ingredient 4
expiring one day after the sample `today` of 20088. -/
def sampleItems : List InventoryItemIn :=
  [⟨some 2, some 1, none⟩, ⟨some 4, some 2, some "2025-01-01"⟩]

/-- A minimal scored recipe used by the diversity-selector claims. -/
def sampleScored (i : Nat) (name : String) (score : ℚ) : ScoredRecipe :=
  ⟨i, name, none, 1, score, [], [], [], []⟩

/-! ## Shared helper lemmas -/

lemma mem_insertDescBy {α : Type} (key : α → ℚ) (x y : α) (l : List α) :
    x ∈ insertDescBy key y l ↔ x = y ∨ x ∈ l := by
  induction l with
  | nil => simp [insertDescBy]
  | cons z zs ih =>
    by_cases h : key z > key y
    · simp only [insertDescBy, if_pos h, List.mem_cons, ih]
      tauto
    · simp only [insertDescBy, if_neg h, List.mem_cons]

lemma mem_sortDescBy {α : Type} (key : α → ℚ) (x : α) (l : List α) :
    x ∈ sortDescBy key l ↔ x ∈ l := by
  induction l with
  | nil => simp [sortDescBy]
  | cons y ys ih =>
    simp only [sortDescBy, mem_insertDescBy, ih, List.mem_cons]

lemma firstMaxBy_mem {α : Type} (f : α → ℚ) (l : List α) (x : α)
    (h : firstMaxBy f l = some x) : x ∈ l := by
  induction l with
  | nil => simp [firstMaxBy] at h
  | cons y ys ih =>
    cases hm : firstMaxBy f ys with
    | none =>
      simp only [firstMaxBy, hm, Option.some.injEq] at h
      simp [h.symm]
    | some z =>
      simp only [firstMaxBy, hm] at h
      by_cases hf : f y ≥ f z
      · rw [if_pos hf] at h
        simp only [Option.some.injEq] at h
        simp [h.symm]
      · rw [if_neg hf] at h
        simp only [Option.some.injEq] at h
        exact List.mem_cons_of_mem _ (ih (h ▸ hm))

lemma filter_by_preferences_subset (gemini : Option String)
    (recipes : List ScoredRecipe) (preferences : Option String) (x : ScoredRecipe)
    (h : x ∈ filter_by_preferences gemini recipes preferences) : x ∈ recipes := by
  unfold filter_by_preferences at h
  split at h
  · exact h
  · cases gemini with
    | none => exact h
    | some text =>
      simp only at h
      split at h
      · exact h
      · exact List.mem_of_mem_filter h

lemma select_diverse_inventory_recipes_subset (kmeansLabels : Option (List Nat))
    (candidates : List ScoredRecipe) (n : Nat) (x : ScoredRecipe)
    (h : x ∈ select_diverse_inventory_recipes kmeansLabels candidates n) :
    x ∈ candidates := by
  unfold select_diverse_inventory_recipes at h
  split at h
  · exact h
  · cases kmeansLabels with
    | none => exact List.take_subset _ _ h
    | some labels =>
      simp only at h
      have h2 := List.take_subset _ _ h
      rw [mem_sortDescBy] at h2
      obtain ⟨cid, _, hmax⟩ := List.mem_filterMap.1 h2
      have hx := firstMaxBy_mem _ _ _ hmax
      obtain ⟨p, hp, hpx⟩ := List.mem_map.1 hx
      have hpz := List.mem_of_mem_filter hp
      exact hpx ▸ (List.of_mem_zip hpz).1

lemma invMem_iff_mem_keys (dict : InvDict) (i : Nat) :
    invMem dict i = true ↔ i ∈ invDictKeys dict := by
  induction dict with
  | nil => simp [invMem, invLookup, invDictKeys, List.lookup]
  | cons p rest ih =>
    by_cases h : i = p.1
    · simp [invMem, invLookup, invDictKeys, List.lookup, h]
    · have hbeq : (i == p.1) = false := by
        simp [h]
      simp only [invMem, invLookup, List.lookup, hbeq, invDictKeys,
        List.map_cons, List.toFinset_cons, Finset.mem_insert] at *
      rw [ih]
      constructor
      · exact Or.inr
      · rintro (hc | hc)
        · exact absurd hc h
        · exact hc

lemma coverageLoop_count (dict : InvDict) (ings : List (Nat × String))
    (l : List Nat) :
    (coverageLoop dict ings l).1 = (l.filter (fun i => invMem dict i)).length := by
  induction l with
  | nil => simp [coverageLoop]
  | cons i rest ih =>
    by_cases h : invMem dict i
    · simp [coverageLoop, h, ih]
    · simp [coverageLoop, h, ih]

lemma coverageLoop_missing (dict : InvDict) (ings : List (Nat × String))
    (l : List Nat) :
    (coverageLoop dict ings l).2.1 =
      (l.filter (fun i => !invMem dict i)).map (resolveMissingName ings) := by
  induction l with
  | nil => simp [coverageLoop]
  | cons i rest ih =>
    by_cases h : invMem dict i
    · simp [coverageLoop, h, ih]
    · simp [coverageLoop, h, ih]

lemma bonusLoop_fst (dict : InvDict) (l : List Nat) :
    (bonusLoop dict l).1 = (l.map (expirationStep dict)).sum := by
  induction l with
  | nil => simp [bonusLoop]
  | cons i rest ih =>
    simp only [List.map_cons, List.sum_cons]
    cases h : invLookup dict i with
    | none => simp [bonusLoop, expirationStep, h, ih]
    | some item =>
      cases hd : item.days_until_expiration with
      | none => simp [bonusLoop, expirationStep, h, hd, ih]
      | some d =>
        by_cases h2 : d ≤ 2
        · simp [bonusLoop, expirationStep, h, hd, h2, ih]
        · by_cases h7 : d ≤ 7
          · simp [bonusLoop, expirationStep, h, hd, h2, h7, ih]
          · simp [bonusLoop, expirationStep, h, hd, h2, h7, ih]

lemma buildInventoryDict_cons_falsy (parse : String → Option ℤ) (today : ℤ)
    (ings : List (Nat × String)) (item : InventoryItemIn)
    (rest : List InventoryItemIn) (h : pyTruthyId item.ingredient_id = false) :
    buildInventoryDict parse today ings (item :: rest) =
      buildInventoryDict parse today ings rest := by
  cases hid : item.ingredient_id with
  | none => simp [buildInventoryDict, hid]
  | some n =>
    rw [hid] at h
    simp only [pyTruthyId, bne_iff_ne, ne_eq, ite_not] at h
    have hn : n = 0 := by
      by_contra hne
      simp [hne] at h
    simp [buildInventoryDict, hid, hn]

lemma buildInventoryDict_nil_of_all_falsy (parse : String → Option ℤ)
    (today : ℤ) (ings : List (Nat × String)) (items : List InventoryItemIn)
    (h : ∀ item ∈ items, pyTruthyId item.ingredient_id = false) :
    buildInventoryDict parse today ings items = [] := by
  induction items with
  | nil => rfl
  | cons item rest ih =>
    rw [buildInventoryDict_cons_falsy parse today ings item rest
      (h item (List.mem_cons_self _ _))]
    exact ih (fun it hit => h it (List.mem_cons_of_mem _ hit))

/-! ## Claim theorems -/

/-- The inventory dictionary the sample inventory builds (ingredient 2
without expiration, ingredient 4 one day before expiring). -/
def sampleDict : InvDict :=
  buildInventoryDict sampleParse 20088 sampleIngredients sampleItems

/-- C1 counterexample: recipe 12 has an empty required-ingredient set, yet
`calculate_coverage_and_missing` returns score `0.0`, not the claimed
`1.0` (the source's early return at the `len(recipe_ingredients) == 0`
guard). -/
theorem C1_counterexample :
    (calculate_coverage_and_missing 12 sampleDict sampleMap
      sampleIngredients).1 = 0 ∧
    (calculate_coverage_and_missing 12 sampleDict sampleMap
      sampleIngredients).1 ≠ 1 := by
  refine ⟨by decide, by decide⟩

/-- C1 (amended): for every pantry, the coverage computation applied to a
recipe whose required-ingredient set is empty returns score `0.0` and an
empty missing set (the recipe is subsequently dropped by the
zero-coverage filter). -/
theorem C1_empty_required_returns_zero (recipe_id : Nat) (dict : InvDict)
    (recipe_ing_map : List (Nat × Nat)) (ings : List (Nat × String))
    (h : recipeRequiredIds recipe_ing_map recipe_id = []) :
    calculate_coverage_and_missing recipe_id dict recipe_ing_map ings
      = (0, [], []) := by
  simp only [calculate_coverage_and_missing, h, if_pos]

/-- C1 witness: the amended statement evaluated on the sample data at
recipe 12, whose required-ingredient set is empty. -/
theorem C1_witness :
    calculate_coverage_and_missing 12 sampleDict sampleMap sampleIngredients
      = (0, [], []) :=
  C1_empty_required_returns_zero 12 sampleDict sampleMap sampleIngredients
    (by decide)

/-- C3 counterexample: the combined score `recommend_from_inventory`
assigns (`total_score = coverage + exp_bonus`) evaluates to `1.0`, not
`0.7`, at coverage `1.0` and zero bonus/urgency: inventory mode does not
use the 0.7/0.3 blend. -/
theorem C3_counterexample :
    total_score 1 0 = 1 ∧ total_score 1 0 ≠ 0.7 := by
  constructor
  · norm_num [total_score]
  · norm_num [total_score]

/-- C3 (amended): inventory mode combines scores additively
(`total_score = coverage + expiration_bonus`); the 0.7/0.3 blend exists
only as the `combined_score` helper exercised by the test suite (absent
from `src/`, modelled from the spec), and that helper does satisfy
`combined_score(1.0, 0.0) == 0.7` and `combined_score(0.0, 1.0) == 0.3`. -/
theorem C3_amended_weighting :
    (∀ coverage exp_bonus : ℚ,
      total_score coverage exp_bonus = coverage + exp_bonus)
    ∧ combined_score 1 0 = 0.7 ∧ combined_score 0 1 = 0.3 := by
  refine ⟨fun c b => rfl, by norm_num [combined_score], by norm_num [combined_score]⟩

/-- C4: for a non-empty, duplicate-free required-ingredient set, the
coverage score equals `|required ∩ keys(pantry)| / |required|` and the
missing list is exactly the required ingredients absent from the pantry,
each materialized as its resolved display name. -/
theorem C4_coverage_formula (recipe_id : Nat) (dict : InvDict)
    (recipe_ing_map : List (Nat × Nat)) (ings : List (Nat × String))
    (hne : recipeRequiredIds recipe_ing_map recipe_id ≠ [])
    (hnd : (recipeRequiredIds recipe_ing_map recipe_id).Nodup) :
    (calculate_coverage_and_missing recipe_id dict recipe_ing_map ings).1 =
      (((recipeRequiredIds recipe_ing_map recipe_id).toFinset ∩
          invDictKeys dict).card : ℚ) /
        (((recipeRequiredIds recipe_ing_map recipe_id).toFinset.card : ℚ))
    ∧ (calculate_coverage_and_missing recipe_id dict recipe_ing_map ings).2.1 =
      ((recipeRequiredIds recipe_ing_map recipe_id).filter
          (fun i => !invMem dict i)).map (resolveMissingName ings) := by
  have hlen : 0 < (recipeRequiredIds recipe_ing_map recipe_id).length :=
    List.length_pos.2 hne
  constructor
  · simp only [calculate_coverage_and_missing, if_neg hne, if_pos hlen,
      coverageLoop_count]
    have hnum : ((recipeRequiredIds recipe_ing_map recipe_id).filter
        (fun i => invMem dict i)).length =
        ((recipeRequiredIds recipe_ing_map recipe_id).toFinset ∩
          invDictKeys dict).card := by
      rw [← List.toFinset_card_of_nodup (hnd.filter _), List.toFinset_filter]
      congr 1
      ext a
      simp only [Finset.mem_filter, Finset.mem_inter]
      rw [and_congr_right_iff]
      intro _
      exact invMem_iff_mem_keys dict a
    have hden : (recipeRequiredIds recipe_ing_map recipe_id).toFinset.card =
        (recipeRequiredIds recipe_ing_map recipe_id).length :=
      List.toFinset_card_of_nodup hnd
    rw [hnum, hden]
  · simp only [calculate_coverage_and_missing, if_neg hne,
      coverageLoop_missing]

/-- C4 witness: the five-ingredient scenario — required `{1,2,3,4,5}`
against pantry keys `{2,4}` gives coverage `0.4 = 2/5`, and the missing
list resolves ingredients 1, 3, 5 to their names. -/
theorem C4_witness :
    ((calculate_coverage_and_missing 11 sampleDict sampleMap
        sampleIngredients).1 =
      (((recipeRequiredIds sampleMap 11).toFinset ∩
          invDictKeys sampleDict).card : ℚ) /
        (((recipeRequiredIds sampleMap 11).toFinset.card : ℚ))
    ∧ (calculate_coverage_and_missing 11 sampleDict sampleMap
        sampleIngredients).2.1 =
      ((recipeRequiredIds sampleMap 11).filter
          (fun i => !invMem sampleDict i)).map (resolveMissingName sampleIngredients))
    ∧ (calculate_coverage_and_missing 11 sampleDict sampleMap
        sampleIngredients).1 = 2/5
    ∧ (calculate_coverage_and_missing 11 sampleDict sampleMap
        sampleIngredients).2.1 = ["Egg", "Flour", "Butter"] := by
  refine ⟨C4_coverage_formula 11 sampleDict sampleMap sampleIngredients
    (by decide) (by decide), by with_unfolding_all decide,
    by with_unfolding_all decide⟩

/-- C5: the expiration bonus is the sum, over the covered ingredients, of
the step bonus (`0.15` when `d ≤ 2`, `0.05` when `2 < d ≤ 7`, `0`
otherwise, and `0` when the expiration is unknown), capped at `0.3`. -/
theorem C5_bonus_is_capped_step_sum (available_ingredients : List Nat)
    (inventory_dict : InvDict) :
    (calculate_expiration_bonus available_ingredients inventory_dict).1 =
      min ((available_ingredients.map (expirationStep inventory_dict)).sum)
        0.3 := by
  simp only [calculate_expiration_bonus, bonusLoop_fst]

/-- C9: whenever the text-match service call raises (modelled by the
`none` response), the preference filter returns the candidate list
unchanged — it fails open, never propagating the failure or emptying the
result. -/
theorem C9_filter_fails_open (recipes : List ScoredRecipe)
    (preferences : Option String) :
    filter_by_preferences none recipes preferences = recipes := by
  unfold filter_by_preferences
  split
  · rfl
  · rfl

/-- C6 counterexample: at coverage `2/3` the source emits `"Uses 66% of
required ingredients."` because `coverage_pct = int(coverage*100)`
truncates, while the claimed `pct = round(coverage*100)` is `67`: the
claimed clause text differs from the code's output. -/
theorem C6_counterexample :
    generate_reasoning (2/3) [] [] = "Uses 66% of required ingredients." ∧
    round ((2/3 : ℚ) * 100) = 67 ∧
    generate_reasoning (2/3) [] [] ≠ "Uses 67% of required ingredients." := by
  refine ⟨by with_unfolding_all decide, by with_unfolding_all decide,
    by with_unfolding_all decide⟩

/-- C6 (amended): for coverage in `[0,1]` the coverage clause is
`"You have all the ingredients needed"` exactly when `coverage = 1`
(equivalently, when the truncated percentage `int(coverage*100)` reaches
100), and otherwise `"Uses {pct}% of required ingredients"` with
`pct = int(coverage*100)` (truncation, not rounding); clauses are joined
by `". "` and the result ends with a period. -/
theorem C6_reasoning_clause (c : ℚ) (e : List ExpiringItem) (m : List String)
    (h0 : 0 ≤ c) (h1 : c ≤ 1) :
    generate_reasoning c e m =
      String.intercalate ". "
        ((if c = 1 then "You have all the ingredients needed"
          else "Uses " ++ toString (pyInt (c * 100))
            ++ "% of required ingredients")
          :: (expiringParts e ++ missingParts m)) ++ "." := by
  have hfl : pyInt (c * 100) = ⌊c * 100⌋ := if_pos (by positivity)
  by_cases hc : c = 1
  · subst hc
    have h100 : pyInt ((1 : ℚ) * 100) = 100 := by
      rw [hfl]
      norm_num
    simp only [generate_reasoning, h100, ge_iff_le, le_refl, if_pos,
      if_true, List.singleton_append]
    simp
  · have hlt : c < 1 := lt_of_le_of_ne h1 hc
    have hpct : pyInt (c * 100) < 100 := by
      rw [hfl, Int.floor_lt]
      push_cast
      nlinarith
    have hnot : ¬ (100 : ℤ) ≤ pyInt (c * 100) := not_le.2 hpct
    simp only [generate_reasoning, ge_iff_le, if_neg hnot, ite_self,
      if_neg hc, List.singleton_append, List.cons_append, List.nil_append]

/-- C6 witness: the amended statement evaluated at coverage `1/2` with no
expiring and no missing ingredients. -/
theorem C6_witness :
    generate_reasoning (1/2) [] [] =
      String.intercalate ". "
        ((if (1/2 : ℚ) = 1 then "You have all the ingredients needed"
          else "Uses " ++ toString (pyInt ((1/2 : ℚ) * 100))
            ++ "% of required ingredients")
          :: (expiringParts [] ++ missingParts [])) ++ "." :=
  C6_reasoning_clause (1/2) [] [] (by norm_num) (by norm_num)

/-- C7 counterexample: with three candidates, target 2 and cluster labels
`[0, 0, 0]` (cluster 1 empty), the diversity selector returns a single
recipe, not `min(target_count, len(candidates)) = 2`. -/
theorem C7_counterexample :
    (select_diverse_inventory_recipes (some [0, 0, 0])
      [sampleScored 1 "A" 3, sampleScored 2 "B" 2, sampleScored 3 "C" 1]
      2).length = 1 ∧
    (select_diverse_inventory_recipes (some [0, 0, 0])
      [sampleScored 1 "A" 3, sampleScored 2 "B" 2, sampleScored 3 "C" 1]
      2).length ≠ min 2
      ([sampleScored 1 "A" 3, sampleScored 2 "B" 2, sampleScored 3 "C" 1] :
        List ScoredRecipe).length := by
  refine ⟨by with_unfolding_all decide, by with_unfolding_all decide⟩

/-- C7 (amended): the diversity selector returns at most
`min(target_count, len(candidates))` recipes — with equality whenever
`len(candidates) ≤ target_count`, in which case the candidate sequence is
returned unchanged (identity, no clustering performed); empty clusters can
make the result strictly shorter otherwise. -/
theorem C7_selector_length (kmeansLabels : Option (List Nat))
    (candidates : List ScoredRecipe) (n : Nat) :
    (select_diverse_inventory_recipes kmeansLabels candidates n).length ≤
        min n candidates.length
    ∧ (candidates.length ≤ n →
        select_diverse_inventory_recipes kmeansLabels candidates n
          = candidates) := by
  constructor
  · unfold select_diverse_inventory_recipes
    by_cases h : candidates.length ≤ n
    · rw [if_pos h, min_eq_right h]
    · rw [if_neg h, min_eq_left (le_of_lt (not_le.1 h))]
      cases kmeansLabels with
      | none =>
        rw [List.length_take]
        exact min_le_left _ _
      | some labels =>
        simp only [List.length_take]
        exact min_le_left _ _
  · intro h
    unfold select_diverse_inventory_recipes
    rw [if_pos h]

/-- C7 witness: a single candidate with target 3 is returned unchanged. -/
theorem C7_witness :
    select_diverse_inventory_recipes none [sampleScored 1 "A" 3] 3
      = [sampleScored 1 "A" 3] :=
  (C7_selector_length none [sampleScored 1 "A" 3] 3).2 (by decide)

/-- C8: `calculate_days_until_expiration` maps a missing date to `None`
and any string the parser rejects to `None` (the `except` branch), and
`calculate_expiration_bonus` skips an available ingredient whose
`days_until_expiration` is `None` — no urgency, no bonus contribution. -/
theorem C8_unparseable_is_none (parse : String → Option ℤ) (today : ℤ) :
    calculate_days_until_expiration parse today none = none
    ∧ (∀ s : String, parse (pyReplaceZ s) = none →
        calculate_days_until_expiration parse today (some s) = none)
    ∧ (∀ (dict : InvDict) (i : Nat) (info : InvInfo) (rest : List Nat),
        invLookup dict i = some info → info.days_until_expiration = none →
        calculate_expiration_bonus (i :: rest) dict
          = calculate_expiration_bonus rest dict) := by
  refine ⟨rfl, fun s h => ?_, fun dict i info rest hlook hdays => ?_⟩
  · simp only [calculate_days_until_expiration, h]
    exact ite_self none
  · unfold calculate_expiration_bonus
    simp only [bonusLoop, hlook, hdays]

/-- C8 witness: the always-failing parser on the string `"not-a-date"`,
the missing date, and an inventory entry with unknown expiration
contributing nothing to the bonus. -/
theorem C8_witness :
    calculate_days_until_expiration (fun _ => none) 0 none = none
    ∧ calculate_days_until_expiration (fun _ => none) 0 (some "not-a-date")
        = none
    ∧ calculate_expiration_bonus [1] [(1, ⟨0, none, none, "Salt"⟩)]
        = calculate_expiration_bonus [] [(1, ⟨0, none, none, "Salt"⟩)] :=
  ⟨(C8_unparseable_is_none (fun _ => none) 0).1,
   (C8_unparseable_is_none (fun _ => none) 0).2.1 "not-a-date" rfl,
   (C8_unparseable_is_none (fun _ => none) 0).2.2
     [(1, ⟨0, none, none, "Salt"⟩)] 1 ⟨0, none, none, "Salt"⟩ [] rfl rfl⟩

/-- C10: an input item with falsy `ingredient_id` (`0`, `None` or absent)
is silently excluded from the pantry mapping, and when every item is
excluded that way (including the empty input list) the engine returns an
empty recommendation list with the summary
`"No valid inventory items provided."` without raising. -/
theorem C10_falsy_items_excluded :
    (∀ (parse : String → Option ℤ) (today : ℤ) (ings : List (Nat × String))
        (item : InventoryItemIn) (rest : List InventoryItemIn),
      pyTruthyId item.ingredient_id = false →
      buildInventoryDict parse today ings (item :: rest)
        = buildInventoryDict parse today ings rest)
    ∧ (∀ (parse : String → Option ℤ) (today : ℤ) (gemini : Option String)
        (kmeansLabels : Option (List Nat)) (recipe_data : List Recipe)
        (recipe_ing_map : List (Nat × Nat)) (ings : List (Nat × String))
        (items : List InventoryItemIn) (preferences : Option String)
        (num_recipes : Nat),
      (∀ item ∈ items, pyTruthyId item.ingredient_id = false) →
      recommend_from_inventory parse today gemini kmeansLabels recipe_data
          recipe_ing_map ings items preferences num_recipes
        = ([], "No valid inventory items provided.")) := by
  constructor
  · exact buildInventoryDict_cons_falsy
  · intro parse today gemini kmeansLabels recipe_data recipe_ing_map ings
      items preferences num_recipes h
    unfold recommend_from_inventory
    rw [buildInventoryDict_nil_of_all_falsy parse today ings items h]
    rfl

/-- C10 witness: an item with absent id plus an item with id `0` are both
excluded, and an input consisting only of such items yields the empty
result with the documented summary. -/
theorem C10_witness :
    buildInventoryDict sampleParse 20088 sampleIngredients
        (⟨some 0, some 1, none⟩ :: [⟨some 2, some 1, none⟩])
      = buildInventoryDict sampleParse 20088 sampleIngredients
        [⟨some 2, some 1, none⟩]
    ∧ recommend_from_inventory sampleParse 20088 none none sampleCatalog
        sampleMap sampleIngredients [⟨none, none, none⟩, ⟨some 0, some 1, none⟩]
        none 5
      = ([], "No valid inventory items provided.") :=
  ⟨C10_falsy_items_excluded.1 sampleParse 20088 sampleIngredients
     ⟨some 0, some 1, none⟩ [⟨some 2, some 1, none⟩] (by decide),
   C10_falsy_items_excluded.2 sampleParse 20088 none none sampleCatalog
     sampleMap sampleIngredients [⟨none, none, none⟩, ⟨some 0, some 1, none⟩]
     none 5 (by decide)⟩

/-- Membership in the diversity stage of `recommend_from_inventory`
comes from the candidate pool, whichever branch is taken. -/
lemma mem_diversify_subset (kmeansLabels : Option (List Nat))
    (top : List ScoredRecipe) (n : Nat) (x : ScoredRecipe)
    (h : x ∈ (if n ≤ top.length ∧ n < top.length then
        select_diverse_inventory_recipes kmeansLabels top n
      else top.take n)) : x ∈ top := by
  split at h
  · exact select_diverse_inventory_recipes_subset _ _ _ _ h
  · exact List.take_subset _ _ h

/-- Membership in the optional preference-filter stage comes from the
unfiltered list, whichever branch is taken. -/
lemma mem_pref_stage_subset (gemini preferences : Option String)
    (l : List ScoredRecipe) (b : Bool) (x : ScoredRecipe)
    (h : x ∈ (if b then filter_by_preferences gemini l preferences else l)) :
    x ∈ l := by
  split at h
  · exact filter_by_preferences_subset _ _ _ _ h
  · exact h

/-- C2: for every pantry, catalog and oracle behaviour, no recipe whose
coverage score against the pantry equals 0 appears in the output of
inventory-mode scoring — zero-coverage recipes are dropped by the filter
before sorting and diversity selection and are never emitted. -/
theorem C2_zero_coverage_never_emitted (parse : String → Option ℤ)
    (today : ℤ) (gemini : Option String) (kmeansLabels : Option (List Nat))
    (recipe_data : List Recipe) (recipe_ing_map : List (Nat × Nat))
    (ingredients : List (Nat × String)) (items : List InventoryItemIn)
    (preferences : Option String) (num_recipes : Nat) (rec : Recommendation)
    (hmem : rec ∈ (recommend_from_inventory parse today gemini kmeansLabels
      recipe_data recipe_ing_map ingredients items preferences
      num_recipes).1) :
    (calculate_coverage_and_missing rec.recipe_id
      (buildInventoryDict parse today ingredients items) recipe_ing_map
      ingredients).1 ≠ 0 := by
  simp only [recommend_from_inventory] at hmem
  split at hmem
  · simp at hmem
  · split at hmem
    · simp at hmem
    · simp only [List.mem_map] at hmem
      obtain ⟨s, hs, hrec⟩ := hmem
      have hid : rec.recipe_id = s.recipe_id := by
        rw [← hrec]
        rfl
      replace hs := mem_diversify_subset _ _ _ _ hs
      replace hs := List.take_subset _ _ hs
      replace hs := mem_pref_stage_subset _ _ _ _ _ hs
      rw [mem_sortDescBy] at hs
      obtain ⟨r, hr, hsc⟩ := List.mem_filterMap.1 hs
      simp only [scoreRecipe] at hsc
      split at hsc
      · exact absurd hsc (by simp)
      · rename_i hcov
        have hrid : s.recipe_id = r.id := by
          simp only [Option.some.injEq] at hsc
          rw [← hsc]
        rw [hid, hrid]
        exact hcov

/-- C2 witness: on the sample pantry/catalog the pipeline emits a first
recommendation, and that recipe's coverage against the pantry is nonzero. -/
theorem C2_witness :
    (calculate_coverage_and_missing
      ((recommend_from_inventory sampleParse 20088 none none sampleCatalog
          sampleMap sampleIngredients sampleItems none 5).1.headI.recipe_id)
      (buildInventoryDict sampleParse 20088 sampleIngredients sampleItems)
      sampleMap sampleIngredients).1 ≠ 0 :=
  C2_zero_coverage_never_emitted sampleParse 20088 none none sampleCatalog
    sampleMap sampleIngredients sampleItems none 5
    ((recommend_from_inventory sampleParse 20088 none none sampleCatalog
        sampleMap sampleIngredients sampleItems none 5).1.headI)
    (by with_unfolding_all decide)
